import Mathlib

/-!
Verification of the Twilio voice-bridge dialog state machine
(`src/mainlang.py`).

The embedding models the three webhook handlers (`voice_answer`,
`voice_process`, `voice_timeout`), the chat-backend adapter `_ask_chat`,
and the process-wide `silence_tracker` map.  A TwiML response is modelled
as a list of actions (say / gather / redirect / hangup); the tracker is an
association list from call sid to an integer silence count (Python ints
are modelled as `Int` so that non-negativity is a real invariant).
External effects are passed in as explicit values: the chat HTTP exchange
is an `Option (Option String)` — `none` when the request raises
(network error, timeout, or `raise_for_status` on a non-2xx reply),
`some a` on success where `a` is the optional `answer` field of the JSON
body.
-/

namespace TwilioVoice

/-- Default of env `PUBLIC_BASE_URL` in the source. -/
def PUBLIC_BASE_URL : String := "https://twiolio-customer-support.onrender.com"

/-- Default of env `WELCOME_PROMPT` in the source. -/
def WELCOME_PROMPT : String :=
  "Welcome to LIC. With you, every moment of your life. " ++
  "Hope you are satisfied with your current policy. " ++
  "You can ask your question now."

/-- Default of env `FOLLOWUP_PROMPT` in the source. -/
def FOLLOWUP_PROMPT : String := "Do you have another question?"

/-- Default of env `SPEECH_LANGUAGE` in the source. -/
def SPEECH_LANGUAGE : String := "en-IN"

/-- Default of env `SPEECH_TIMEOUT` in the source. -/
def SPEECH_TIMEOUT : String := "auto"

/-- `MAX_SILENCE_COUNT = 2`: max consecutive silences before auto-hangup. -/
def MAX_SILENCE_COUNT : Int := 2

/-- Literal spoken when the chat call raises inside `voice_process`. -/
def PROCESS_ERROR_TEXT : String :=
  "Sorry, something went wrong while answering your question."

/-- Goodbye literal of the `should_end` branch of `voice_process`. -/
def GOODBYE_TEXT : String := "Thank you for calling LIC. Have a great day. Goodbye."

/-- Goodbye literal of the terminal branch of `voice_timeout`. -/
def SILENCE_GOODBYE : String :=
  "I haven\x27t heard from you. Thank you for calling. Goodbye."

/-- Re-prompt literal of the retry branch of `voice_timeout`. -/
def SILENCE_REPROMPT : String := "I didn\x27t catch that. Do you have any questions?"

/-- Fallback used when the chat JSON has no truthy `answer` field. -/
def CHAT_FALLBACK_ANSWER : String := "Sorry, I can\x27t find that right now."

/-- Python `str.rstrip('/')`: drop trailing slash characters. -/
def rstripSlash (s : String) : String :=
  ⟨(s.data.reverse.dropWhile (fun c => c = '/')).reverse⟩

/-- `_abs`: absolute URL for Twilio callbacks. -/
def absUrl (path : String) : String := rstripSlash PUBLIC_BASE_URL ++ path

/-- Attributes of a Twilio `Gather` verb as constructed by the source. -/
structure GatherSpec where
  input : String
  action : String
  method : String
  speechTimeout : String
  language : String
  bargeIn : Bool
  sayTexts : List String
deriving DecidableEq, Repr

/-- Every handler builds its `Gather` with the same attributes, varying
only the nested `say` texts. -/
def mkGather (texts : List String) : GatherSpec :=
  { input := "speech"
    action := absUrl "/voice/process"
    method := "POST"
    speechTimeout := SPEECH_TIMEOUT
    language := SPEECH_LANGUAGE
    bargeIn := true
    sayTexts := texts }

/-- One TwiML verb of a rendered `VoiceResponse`. -/
inductive TwimlAction where
  | say (text : String)
  | gather (g : GatherSpec)
  | redirect (url : String) (method : String)
  | hangup
deriving DecidableEq, Repr

def isHangup : TwimlAction → Bool
  | .hangup => true
  | _ => false

def isGather : TwimlAction → Bool
  | .gather _ => true
  | _ => false

def hasHangup (as : List TwimlAction) : Bool := as.any isHangup

def hasGather (as : List TwimlAction) : Bool := as.any isGather

/-- The `silence_tracker` dict: call sid to silence count. -/
abbrev Tracker := List (String × Int)

/-- Remove a key (`silence_tracker.pop(call_sid, None)`). -/
def eraseT (st : Tracker) (k : String) : Tracker := st.filter (fun p => p.1 != k)

/-- Dict assignment `silence_tracker[call_sid] = v`. -/
def insertT (st : Tracker) (k : String) (v : Int) : Tracker := (k, v) :: eraseT st k

/-- Dict lookup returning `none` when the key is absent. -/
def lookupT : Tracker → String → Option Int
  | [], _ => none
  | p :: rest, k => if p.1 = k then some p.2 else lookupT rest k

/-- All stored silence counts are non-negative. -/
def nonnegT (st : Tracker) : Bool := st.all (fun p => 0 ≤ p.2)

/-- `form.get("CallSid", "unknown")`. -/
def callSidKey (callSid : Option String) : String := callSid.getD "unknown"

/-- Python truthiness of the optional `SpeechResult` form field:
`None` and the empty string are falsy, every other string is truthy. -/
def truthyStr : Option String → Bool
  | none => false
  | some s => s != ""

/-- Return value of `_ask_chat`: `(answer, should_end)`. -/
structure ChatReply where
  answer : String
  shouldEnd : Bool
deriving DecidableEq, Repr

def startsWithChars : List Char → List Char → Bool
  | [], _ => true
  | _ :: _, [] => false
  | n :: ns, h :: hs => n == h && startsWithChars ns hs

def containsChars (needle : List Char) : List Char → Bool
  | [] => startsWithChars needle []
  | h :: hs => startsWithChars needle (h :: hs) || containsChars needle hs

/-- Python `needle in hay` on strings: substring containment. -/
def hasSub (hay needle : String) : Bool := containsChars needle.data hay.data

/-- Python `str.lower()`, characterwise. -/
def strToLower (s : String) : String := ⟨s.data.map Char.toLower⟩

/-- `_ask_chat`: `none` when the HTTP exchange raises (the exception
propagates to the caller); on success the answer field is defaulted with
`or` (falsy `""`/missing become the fallback), then the `end_call`
marker is sniffed case-insensitively and, when present, the answer is
replaced by `""` so the marker is never spoken. -/
def ask_chat (resp : Option (Option String)) : Option ChatReply :=
  match resp with
  | none => none
  | some ansField =>
      let answer :=
        match ansField with
        | none => CHAT_FALLBACK_ANSWER
        | some a => if a = "" then CHAT_FALLBACK_ANSWER else a
      if hasSub (strToLower answer) "end_call" && hasSub (strToLower answer) "true" then
        some { answer := "", shouldEnd := true }
      else
        some { answer := answer, shouldEnd := false }

/-- `voice_answer`: greet and gather speech with barge-in support. -/
def voice_answer (callSid : Option String) (st : Tracker) :
    List TwimlAction × Tracker :=
  let sid := callSidKey callSid
  let st1 := insertT st sid 0
  ([TwimlAction.gather (mkGather [WELCOME_PROMPT]),
    TwimlAction.redirect (absUrl "/voice/timeout") "POST"], st1)

/-- Result of one `voice_process` invocation; `chatCalled` records
whether `_ask_chat` (the QA backend) was invoked. -/
structure ProcessResult where
  render : List TwimlAction
  tracker : Tracker
  chatCalled : Bool
deriving DecidableEq, Repr

/-- `voice_process`: handle the speech result, call `/chat`, speak the
reply; falsy transcript redirects to the timeout handler. -/
def voice_process (callSid : Option String) (speechResult : Option String)
    (chatResp : Option (Option String)) (st : Tracker) : ProcessResult :=
  let sid := callSidKey callSid
  if truthyStr speechResult = false then
    { render := [TwimlAction.redirect (absUrl "/voice/timeout") "POST"]
      tracker := st
      chatCalled := false }
  else
    let st1 := insertT st sid 0
    match ask_chat chatResp with
    | none =>
        { render := [TwimlAction.say PROCESS_ERROR_TEXT,
                     TwimlAction.redirect (absUrl "/voice/timeout") "POST"]
          tracker := st1
          chatCalled := true }
    | some reply =>
        if reply.shouldEnd then
          { render := [TwimlAction.say GOODBYE_TEXT, TwimlAction.hangup]
            tracker := eraseT st1 sid
            chatCalled := true }
        else
          { render := [TwimlAction.gather (mkGather [reply.answer, FOLLOWUP_PROMPT]),
                       TwimlAction.redirect (absUrl "/voice/timeout") "POST"]
            tracker := st1
            chatCalled := true }

/-- `voice_timeout`: handle silence, end the call after max retries. -/
def voice_timeout (callSid : Option String) (st : Tracker) :
    List TwimlAction × Tracker :=
  let sid := callSidKey callSid
  let count := (lookupT st sid).getD 0 + 1
  let st1 := insertT st sid count
  if MAX_SILENCE_COUNT ≤ count then
    ([TwimlAction.say SILENCE_GOODBYE, TwimlAction.hangup], eraseT st1 sid)
  else
    ([TwimlAction.gather (mkGather [SILENCE_REPROMPT]),
      TwimlAction.redirect (absUrl "/voice/timeout") "POST"], st1)

/-- One inbound webhook event, with its external chat outcome. -/
inductive VoiceEvent where
  | answer (callSid : Option String)
  | process (callSid : Option String) (speechResult : Option String)
      (chatResp : Option (Option String))
  | timeout (callSid : Option String)

/-- Effect of one event on the shared `silence_tracker`. -/
def stepTracker (st : Tracker) : VoiceEvent → Tracker
  | .answer sid => (voice_answer sid st).2
  | .process sid tr chat => (voice_process sid tr chat st).tracker
  | .timeout sid => (voice_timeout sid st).2

/-- Tracker reached from process start (empty dict) by a list of events. -/
def runEvents (es : List VoiceEvent) : Tracker := es.foldl stepTracker []

theorem eraseT_cons (p : String × Int) (rest : Tracker) (k : String) :
    eraseT (p :: rest) k =
      if p.1 = k then eraseT rest k else p :: eraseT rest k := by
  by_cases h : p.1 = k <;> simp [eraseT, List.filter_cons, h]

theorem eraseT_eraseT (st : Tracker) (k : String) :
    eraseT (eraseT st k) k = eraseT st k := by
  induction st with
  | nil => rfl
  | cons p rest ih =>
      by_cases h : p.1 = k <;> simp [eraseT_cons, h, ih]

theorem eraseT_insertT (st : Tracker) (k : String) (v : Int) :
    eraseT (insertT st k v) k = eraseT st k := by
  simp [insertT, eraseT_cons, eraseT_eraseT]

theorem insertT_insertT (st : Tracker) (k : String) (v w : Int) :
    insertT (insertT st k v) k w = insertT st k w := by
  simp [insertT, eraseT_cons, eraseT_eraseT]

theorem lookupT_insertT_self (st : Tracker) (k : String) (v : Int) :
    lookupT (insertT st k v) k = some v := by
  simp [insertT, lookupT]

theorem lookupT_eraseT_self (st : Tracker) (k : String) :
    lookupT (eraseT st k) k = none := by
  induction st with
  | nil => rfl
  | cons p rest ih =>
      by_cases h : p.1 = k <;> simp [eraseT_cons, h, lookupT, ih]

theorem nonnegT_eraseT (st : Tracker) (k : String)
    (h : nonnegT st = true) : nonnegT (eraseT st k) = true := by
  simp only [nonnegT, eraseT, List.all_eq_true] at *
  intro p hp
  exact h p (List.mem_of_mem_filter hp)

theorem nonnegT_insertT (st : Tracker) (k : String) (v : Int)
    (h : nonnegT st = true) (hv : 0 ≤ v) : nonnegT (insertT st k v) = true := by
  simp only [insertT, nonnegT, List.all_cons, Bool.and_eq_true, decide_eq_true_eq]
  exact ⟨hv, nonnegT_eraseT st k h⟩

theorem lookupT_getD_nonneg (st : Tracker) (k : String)
    (h : nonnegT st = true) : 0 ≤ (lookupT st k).getD 0 := by
  induction st with
  | nil => simp [lookupT]
  | cons p rest ih =>
      simp only [nonnegT, List.all_cons, Bool.and_eq_true, decide_eq_true_eq] at h
      by_cases hk : p.1 = k
      · simpa [lookupT, hk] using h.1
      · simpa [lookupT, hk] using ih h.2

theorem nonnegT_stepTracker (st : Tracker) (e : VoiceEvent)
    (h : nonnegT st = true) : nonnegT (stepTracker st e) = true := by
  cases e with
  | answer sid =>
      exact nonnegT_insertT st (callSidKey sid) 0 h le_rfl
  | process sid tr chat =>
      simp only [stepTracker, voice_process]
      split
      · exact h
      · cases hc : ask_chat chat with
        | none => exact nonnegT_insertT st (callSidKey sid) 0 h le_rfl
        | some reply =>
            by_cases he : reply.shouldEnd <;>
              simp only [he, if_true, if_false, Bool.false_eq_true]
            · exact nonnegT_eraseT _ _
                (nonnegT_insertT st (callSidKey sid) 0 h le_rfl)
            · exact nonnegT_insertT st (callSidKey sid) 0 h le_rfl
  | timeout sid =>
      have hc : 0 ≤ (lookupT st (callSidKey sid)).getD 0 :=
        lookupT_getD_nonneg st (callSidKey sid) h
      simp only [stepTracker, voice_timeout]
      split
      · exact nonnegT_eraseT _ _
          (nonnegT_insertT st (callSidKey sid) _ h (by linarith))
      · exact nonnegT_insertT st (callSidKey sid) _ h (by linarith)

theorem nonnegT_foldl (es : List VoiceEvent) (st : Tracker)
    (h : nonnegT st = true) : nonnegT (es.foldl stepTracker st) = true := by
  induction es generalizing st with
  | nil => exact h
  | cons e rest ih =>
      exact ih (stepTracker st e) (nonnegT_stepTracker st e h)

theorem nonnegT_runEvents (es : List VoiceEvent) :
    nonnegT (runEvents es) = true :=
  nonnegT_foldl es [] rfl

theorem voice_timeout_eq (callSid : Option String) (st : Tracker) :
    voice_timeout callSid st =
      if MAX_SILENCE_COUNT ≤ (lookupT st (callSidKey callSid)).getD 0 + 1 then
        ([TwimlAction.say SILENCE_GOODBYE, TwimlAction.hangup],
          eraseT st (callSidKey callSid))
      else
        ([TwimlAction.gather (mkGather [SILENCE_REPROMPT]),
          TwimlAction.redirect (absUrl "/voice/timeout") "POST"],
          insertT st (callSidKey callSid)
            ((lookupT st (callSidKey callSid)).getD 0 + 1)) := by
  unfold voice_timeout
  split <;> simp_all [eraseT_insertT]

theorem voice_process_eq (callSid : Option String) (tr : Option String)
    (chatResp : Option (Option String)) (st : Tracker) :
    voice_process callSid tr chatResp st =
      if truthyStr tr = false then
        { render := [TwimlAction.redirect (absUrl "/voice/timeout") "POST"],
          tracker := st, chatCalled := false }
      else
        match ask_chat chatResp with
        | none =>
            { render := [TwimlAction.say PROCESS_ERROR_TEXT,
                TwimlAction.redirect (absUrl "/voice/timeout") "POST"],
              tracker := insertT st (callSidKey callSid) 0, chatCalled := true }
        | some reply =>
            if reply.shouldEnd then
              { render := [TwimlAction.say GOODBYE_TEXT, TwimlAction.hangup],
                tracker := eraseT st (callSidKey callSid), chatCalled := true }
            else
              { render := [TwimlAction.gather
                    (mkGather [reply.answer, FOLLOWUP_PROMPT]),
                  TwimlAction.redirect (absUrl "/voice/timeout") "POST"],
                tracker := insertT st (callSidKey callSid) 0,
                chatCalled := true } := by
  unfold voice_process
  split
  · rfl
  · cases ask_chat chatResp with
    | none => rfl
    | some reply =>
        by_cases he : reply.shouldEnd <;> simp [he, eraseT_insertT]

/-- C1: on a silence-timeout event, when the incremented silence count
reaches `MAX_SILENCE_COUNT` (2) the render is the goodbye prompt followed
by a hangup and the session entry is removed; when it stays below 2 the
render is the re-prompt gather (a reopened listen window) followed by a
redirect back to the timeout handler; and from a zero count, the second of
two consecutive timeout events always renders the terminal goodbye with no
third listen window. -/
theorem C1_silence_exhaustion (callSid : Option String) (st : Tracker) :
    (MAX_SILENCE_COUNT ≤ (lookupT st (callSidKey callSid)).getD 0 + 1 →
      (voice_timeout callSid st).1 =
        [TwimlAction.say SILENCE_GOODBYE, TwimlAction.hangup] ∧
      lookupT (voice_timeout callSid st).2 (callSidKey callSid) = none) ∧
    ((lookupT st (callSidKey callSid)).getD 0 + 1 < MAX_SILENCE_COUNT →
      (voice_timeout callSid st).1 =
        [TwimlAction.gather (mkGather [SILENCE_REPROMPT]),
         TwimlAction.redirect (absUrl "/voice/timeout") "POST"] ∧
      hasHangup (voice_timeout callSid st).1 = false) ∧
    ((lookupT st (callSidKey callSid)).getD 0 = 0 →
      hasGather (voice_timeout callSid st).1 = true ∧
      (voice_timeout callSid (voice_timeout callSid st).2).1 =
        [TwimlAction.say SILENCE_GOODBYE, TwimlAction.hangup] ∧
      hasGather (voice_timeout callSid (voice_timeout callSid st).2).1 =
        false) := by
  refine ⟨?_, ?_, ?_⟩
  · intro h
    rw [voice_timeout_eq, if_pos h]
    exact ⟨rfl, lookupT_eraseT_self st (callSidKey callSid)⟩
  · intro h
    rw [voice_timeout_eq, if_neg (not_le.mpr h)]
    exact ⟨rfl, rfl⟩
  · intro h0
    have h1 : ¬ MAX_SILENCE_COUNT ≤
        (lookupT st (callSidKey callSid)).getD 0 + 1 := by
      rw [h0]; decide
    have e1 : voice_timeout callSid st =
        ([TwimlAction.gather (mkGather [SILENCE_REPROMPT]),
          TwimlAction.redirect (absUrl "/voice/timeout") "POST"],
         insertT st (callSidKey callSid) 1) := by
      rw [voice_timeout_eq, if_neg h1, h0]
      norm_num
    have h2 : MAX_SILENCE_COUNT ≤
        (lookupT (insertT st (callSidKey callSid) 1)
          (callSidKey callSid)).getD 0 + 1 := by
      rw [lookupT_insertT_self]; decide
    refine ⟨by rw [e1]; rfl, ?_, ?_⟩
    · rw [e1]
      rw [voice_timeout_eq, if_pos h2]
    · rw [e1]
      rw [voice_timeout_eq, if_pos h2]
      rfl

/-- C1 witness: concrete instances of both branches and of the
two-consecutive-silences run. -/
theorem C1_silence_exhaustion_witness :
    ((voice_timeout (some "CA1") [("CA1", 1)]).1 =
        [TwimlAction.say SILENCE_GOODBYE, TwimlAction.hangup] ∧
      lookupT (voice_timeout (some "CA1") [("CA1", 1)]).2 "CA1" = none) ∧
    ((voice_timeout (some "CA2") []).1 =
        [TwimlAction.gather (mkGather [SILENCE_REPROMPT]),
         TwimlAction.redirect (absUrl "/voice/timeout") "POST"] ∧
      hasHangup (voice_timeout (some "CA2") []).1 = false) ∧
    (hasGather (voice_timeout (some "CA2") []).1 = true ∧
      (voice_timeout (some "CA2") (voice_timeout (some "CA2") []).2).1 =
        [TwimlAction.say SILENCE_GOODBYE, TwimlAction.hangup] ∧
      hasGather
        (voice_timeout (some "CA2") (voice_timeout (some "CA2") []).2).1 =
        false) :=
  ⟨(C1_silence_exhaustion (some "CA1") [("CA1", 1)]).1 (by decide),
   (C1_silence_exhaustion (some "CA2") []).2.1 (by decide),
   (C1_silence_exhaustion (some "CA2") []).2.2 (by decide)⟩

/-- C2 counterexample: the silence-timeout handler is not idempotent.
For the fresh call `"CAdup"`, a single timeout delivery stores
`silence_count = 1`, but delivering the identical event a second time
increments again, hits the terminal branch, hangs up the call and removes
the entry — the stored state after two deliveries differs from the state
after one. -/
theorem C2_counterexample :
    lookupT (voice_timeout (some "CAdup") []).2 "CAdup" = some 1 ∧
    lookupT (voice_timeout (some "CAdup")
        (voice_timeout (some "CAdup") []).2).2 "CAdup" = none ∧
    (voice_timeout (some "CAdup") (voice_timeout (some "CAdup") []).2).2 ≠
      (voice_timeout (some "CAdup") []).2 ∧
    hasHangup (voice_timeout (some "CAdup")
        (voice_timeout (some "CAdup") []).2).1 = true := by
  decide

/-- C2 amended: duplicate delivery never raises (all handlers are total),
and is harmless for the answer and speech events, whose handlers only
write the constant 0 or delete the entry: replaying either leaves the
stored state exactly as one delivery does.  The silence-timeout handler,
however, increments the counter on every delivery: from a fresh session a
single delivery stores 1, while a duplicate reaches the terminal branch,
renders a hangup and removes the entry. -/
theorem C2_duplicate_delivery (callSid : Option String) (tr : Option String)
    (chatResp : Option (Option String)) (st : Tracker)
    (hfresh : lookupT st (callSidKey callSid) = none) :
    (voice_answer callSid (voice_answer callSid st).2).2 =
      (voice_answer callSid st).2 ∧
    (voice_process callSid tr chatResp
        (voice_process callSid tr chatResp st).tracker).tracker =
      (voice_process callSid tr chatResp st).tracker ∧
    lookupT (voice_timeout callSid st).2 (callSidKey callSid) = some 1 ∧
    lookupT (voice_timeout callSid
        (voice_timeout callSid st).2).2 (callSidKey callSid) = none ∧
    hasHangup (voice_timeout callSid (voice_timeout callSid st).2).1 =
      true := by
  have h1 : ¬ MAX_SILENCE_COUNT ≤
      (lookupT st (callSidKey callSid)).getD 0 + 1 := by
    rw [hfresh]; decide
  have e1 : voice_timeout callSid st =
      ([TwimlAction.gather (mkGather [SILENCE_REPROMPT]),
        TwimlAction.redirect (absUrl "/voice/timeout") "POST"],
       insertT st (callSidKey callSid) 1) := by
    rw [voice_timeout_eq, if_neg h1, hfresh]
    norm_num
  have h2 : MAX_SILENCE_COUNT ≤
      (lookupT (insertT st (callSidKey callSid) 1)
        (callSidKey callSid)).getD 0 + 1 := by
    rw [lookupT_insertT_self]; decide
  refine ⟨?_, ?_, ?_, ?_, ?_⟩
  · simp [voice_answer, insertT_insertT]
  · rw [voice_process_eq, voice_process_eq]
    by_cases htr : truthyStr tr = false
    · simp [htr]
    · simp only [htr, if_false, Bool.false_eq_true]
      cases hc : ask_chat chatResp with
      | none => simp [insertT_insertT]
      | some reply =>
          by_cases he : reply.shouldEnd <;>
            simp [he, insertT_insertT, eraseT_insertT, eraseT_eraseT]
  · rw [e1, lookupT_insertT_self]
  · rw [e1, voice_timeout_eq, if_pos h2]
    exact lookupT_eraseT_self _ _
  · rw [e1, voice_timeout_eq, if_pos h2]
    rfl

/-- C2 witness: the amended statement at the fresh call `"CA9"` with a
spoken transcript and a successful chat reply. -/
theorem C2_duplicate_delivery_witness :
    lookupT ([] : Tracker) "CA9" = none ∧
    ((voice_answer (some "CA9") (voice_answer (some "CA9") []).2).2 =
        (voice_answer (some "CA9") []).2 ∧
      (voice_process (some "CA9") (some "hi") (some (some "ok"))
          (voice_process (some "CA9") (some "hi") (some (some "ok"))
            []).tracker).tracker =
        (voice_process (some "CA9") (some "hi") (some (some "ok"))
          []).tracker ∧
      lookupT (voice_timeout (some "CA9") []).2 "CA9" = some 1 ∧
      lookupT (voice_timeout (some "CA9")
          (voice_timeout (some "CA9") []).2).2 "CA9" = none ∧
      hasHangup (voice_timeout (some "CA9")
          (voice_timeout (some "CA9") []).2).1 = true) :=
  ⟨by decide,
   C2_duplicate_delivery (some "CA9") (some "hi") (some (some "ok")) []
     (by decide)⟩

/-- C3 counterexample: the code has no pre-lookup intent classifier.
For the transcript `"no thanks"` whose chat reply carries the end marker,
the render is goodbye plus hangup (an END verdict), yet the QA backend
was invoked for that event (`chatCalled = true`) — the end verdict can
only ever be derived from the backend answer itself, contradicting
"the QA backend is never invoked". -/
theorem C3_counterexample :
    (voice_process (some "CA2") (some "no thanks")
        (some (some "end_call true")) []).render =
      [TwimlAction.say GOODBYE_TEXT, TwimlAction.hangup] ∧
    (voice_process (some "CA2") (some "no thanks")
        (some (some "end_call true")) []).chatCalled = true := by
  decide

/-- C3 amended: for every non-empty transcript event the QA backend is
invoked (there is no separate pre-lookup classifier); the end-of-call
verdict is derived from the backend answer after the lookup, and whenever
that verdict is END the rendered response is goodbye plus hangup. -/
theorem C3_end_after_lookup (callSid : Option String) (tr : Option String)
    (chatResp : Option (Option String)) (st : Tracker)
    (htr : truthyStr tr = true) :
    (voice_process callSid tr chatResp st).chatCalled = true ∧
    ((ask_chat chatResp).map ChatReply.shouldEnd = some true →
      (voice_process callSid tr chatResp st).render =
        [TwimlAction.say GOODBYE_TEXT, TwimlAction.hangup]) := by
  rw [voice_process_eq]
  have htr' : ¬ truthyStr tr = false := by simp [htr]
  rw [if_neg htr']
  cases hc : ask_chat chatResp with
  | none => exact ⟨rfl, fun hend => absurd hend (by simp)⟩
  | some reply =>
      constructor
      · by_cases he : reply.shouldEnd <;> simp [he]
      · intro hend
        have he : reply.shouldEnd = true := by
          simpa using hend
        simp only [he, if_true]

/-- C3 witness: the amended statement at the `"no thanks"` end-marker
event. -/
theorem C3_end_after_lookup_witness :
    truthyStr (some "no thanks") = true ∧
    ((voice_process (some "CA2") (some "no thanks")
        (some (some "end_call true")) []).chatCalled = true ∧
      ((ask_chat (some (some "end_call true"))).map ChatReply.shouldEnd =
          some true →
        (voice_process (some "CA2") (some "no thanks")
            (some (some "end_call true")) []).render =
          [TwimlAction.say GOODBYE_TEXT, TwimlAction.hangup])) :=
  ⟨by decide,
   C3_end_after_lookup (some "CA2") (some "no thanks")
     (some (some "end_call true")) [] (by decide)⟩

/-- C4: when the chat exchange raises (network error, timeout, or
`raise_for_status` on a 500), the render speaks the fallback apology and
redirects to the timeout handler — no hangup; following that redirect,
the timeout handler (acting on the counter the event just reset to 0)
renders a reopened listen window, again with no hangup.  Moreover a
`voice_process` render can contain a hangup only when the chat reply
itself carries the end verdict. -/
theorem C4_backend_failure (callSid : Option String) (tr : Option String)
    (chatResp : Option (Option String)) (st : Tracker)
    (htr : truthyStr tr = true) :
    (voice_process callSid tr none st).render =
      [TwimlAction.say PROCESS_ERROR_TEXT,
       TwimlAction.redirect (absUrl "/voice/timeout") "POST"] ∧
    hasHangup (voice_process callSid tr none st).render = false ∧
    hasGather
      (voice_timeout callSid (voice_process callSid tr none st).tracker).1 =
      true ∧
    hasHangup
      (voice_timeout callSid (voice_process callSid tr none st).tracker).1 =
      false ∧
    (hasHangup (voice_process callSid tr chatResp st).render = true →
      (ask_chat chatResp).map ChatReply.shouldEnd = some true) := by
  have htr' : ¬ truthyStr tr = false := by simp [htr]
  have e1 : voice_process callSid tr none st =
      { render := [TwimlAction.say PROCESS_ERROR_TEXT,
          TwimlAction.redirect (absUrl "/voice/timeout") "POST"],
        tracker := insertT st (callSidKey callSid) 0, chatCalled := true } := by
    rw [voice_process_eq, if_neg htr']
    rfl
  have h2 : ¬ MAX_SILENCE_COUNT ≤
      (lookupT (insertT st (callSidKey callSid) 0)
        (callSidKey callSid)).getD 0 + 1 := by
    rw [lookupT_insertT_self]; decide
  refine ⟨by rw [e1], by rw [e1]; rfl, ?_, ?_, ?_⟩
  · rw [e1]
    rw [voice_timeout_eq, if_neg h2]
    rfl
  · rw [e1]
    rw [voice_timeout_eq, if_neg h2]
    rfl
  · intro hh
    rw [voice_process_eq, if_neg htr'] at hh
    cases hc : ask_chat chatResp with
    | none => rw [hc] at hh; simp [hasHangup, isHangup] at hh
    | some reply =>
        rw [hc] at hh
        by_cases he : reply.shouldEnd = true
        · simp [he]
        · exfalso
          simp [he, hasHangup, isHangup] at hh

/-- C4 witness: the statement at call `"CA3"` with a spoken question and
a failing backend. -/
theorem C4_backend_failure_witness :
    truthyStr (some "what is my premium") = true ∧
    ((voice_process (some "CA3") (some "what is my premium") none
        []).render =
      [TwimlAction.say PROCESS_ERROR_TEXT,
       TwimlAction.redirect (absUrl "/voice/timeout") "POST"] ∧
    hasHangup (voice_process (some "CA3") (some "what is my premium") none
        []).render = false ∧
    hasGather (voice_timeout (some "CA3")
        (voice_process (some "CA3") (some "what is my premium") none
          []).tracker).1 = true ∧
    hasHangup (voice_timeout (some "CA3")
        (voice_process (some "CA3") (some "what is my premium") none
          []).tracker).1 = false ∧
    (hasHangup (voice_process (some "CA3") (some "what is my premium") none
          []).render = true →
      (ask_chat none).map ChatReply.shouldEnd = some true)) :=
  ⟨by decide,
   C4_backend_failure (some "CA3") (some "what is my premium") none []
     (by decide)⟩

/-- C5 counterexample: a whitespace-only transcript is truthy in Python
(`not " "` is `False`), so the single-space transcript does not take the
silence path: the QA backend is invoked and a gather is rendered instead
of the bare redirect to the timeout handler. -/
theorem C5_counterexample :
    (voice_process (some "CA1") (some " ") (some (some "hello"))
        []).chatCalled = true ∧
    hasGather (voice_process (some "CA1") (some " ") (some (some "hello"))
        []).render = true ∧
    (voice_process (some "CA1") (some " ") (some (some "hello"))
        []).render ≠
      [TwimlAction.redirect (absUrl "/voice/timeout") "POST"] := by
  decide

/-- C5 amended: only a missing or zero-length transcript takes the
silence path — the render is the bare redirect to the timeout handler,
the QA backend is not invoked, and the tracker is untouched; a
whitespace-only non-empty transcript is truthy and is processed as
speech. -/
theorem C5_empty_transcript (callSid : Option String) (tr : Option String)
    (chatResp : Option (Option String)) (st : Tracker)
    (h : tr = none ∨ tr = some "") :
    (voice_process callSid tr chatResp st).render =
      [TwimlAction.redirect (absUrl "/voice/timeout") "POST"] ∧
    (voice_process callSid tr chatResp st).chatCalled = false ∧
    (voice_process callSid tr chatResp st).tracker = st := by
  have hf : truthyStr tr = false := by
    rcases h with h | h <;> rw [h] <;> rfl
  rw [voice_process_eq, if_pos hf]
  exact ⟨rfl, rfl, rfl⟩

/-- C5 witness: the amended statement at the missing-transcript event. -/
theorem C5_empty_transcript_witness :
    (none = (none : Option String) ∨ none = some "") ∧
    ((voice_process (some "CA1") none (some (some "hello")) []).render =
      [TwimlAction.redirect (absUrl "/voice/timeout") "POST"] ∧
    (voice_process (some "CA1") none (some (some "hello"))
        []).chatCalled = false ∧
    (voice_process (some "CA1") none (some (some "hello")) []).tracker =
      []) :=
  ⟨Or.inl rfl,
   C5_empty_transcript (some "CA1") none (some (some "hello")) []
     (Or.inl rfl)⟩

/-- C10: a silence-timeout event for a call id with no session entry does
not fail: the handler reads the missing counter as 0, stores 1, and
renders the re-prompt gather with a redirect — no hangup — implicitly
creating the session outside the first-contact path. -/
theorem C10_timeout_without_session (callSid : Option String) (st : Tracker)
    (h : lookupT st (callSidKey callSid) = none) :
    lookupT (voice_timeout callSid st).2 (callSidKey callSid) = some 1 ∧
    (voice_timeout callSid st).1 =
      [TwimlAction.gather (mkGather [SILENCE_REPROMPT]),
       TwimlAction.redirect (absUrl "/voice/timeout") "POST"] ∧
    hasHangup (voice_timeout callSid st).1 = false := by
  have h1 : ¬ MAX_SILENCE_COUNT ≤
      (lookupT st (callSidKey callSid)).getD 0 + 1 := by
    rw [h]; decide
  have e1 : voice_timeout callSid st =
      ([TwimlAction.gather (mkGather [SILENCE_REPROMPT]),
        TwimlAction.redirect (absUrl "/voice/timeout") "POST"],
       insertT st (callSidKey callSid) 1) := by
    rw [voice_timeout_eq, if_neg h1, h]
    norm_num
  rw [e1]
  exact ⟨lookupT_insertT_self st (callSidKey callSid) 1, rfl, rfl⟩

/-- C10 witness: the statement at a fresh call id and empty tracker. -/
theorem C10_timeout_without_session_witness :
    lookupT ([] : Tracker) "CAfresh" = none ∧
    (lookupT (voice_timeout (some "CAfresh") []).2 "CAfresh" = some 1 ∧
    (voice_timeout (some "CAfresh") []).1 =
      [TwimlAction.gather (mkGather [SILENCE_REPROMPT]),
       TwimlAction.redirect (absUrl "/voice/timeout") "POST"] ∧
    hasHangup (voice_timeout (some "CAfresh") []).1 = false) :=
  ⟨by decide,
   C10_timeout_without_session (some "CAfresh") [] (by decide)⟩

theorem timeout_increments (callSid : Option String) (st : Tracker)
    (h : (lookupT st (callSidKey callSid)).getD 0 + 1 < MAX_SILENCE_COUNT) :
    lookupT (voice_timeout callSid st).2 (callSidKey callSid) =
      some ((lookupT st (callSidKey callSid)).getD 0 + 1) := by
  rw [voice_timeout_eq, if_neg (not_le.mpr h), lookupT_insertT_self]

theorem timeout_terminal_deletes (callSid : Option String) (st : Tracker)
    (h : MAX_SILENCE_COUNT ≤ (lookupT st (callSidKey callSid)).getD 0 + 1) :
    lookupT (voice_timeout callSid st).2 (callSidKey callSid) = none := by
  rw [voice_timeout_eq, if_pos h]
  exact lookupT_eraseT_self st (callSidKey callSid)

theorem process_resets (callSid : Option String) (tr : Option String)
    (chatResp : Option (Option String)) (st : Tracker)
    (htr : truthyStr tr = true)
    (hcont : (ask_chat chatResp).map ChatReply.shouldEnd ≠ some true) :
    lookupT (voice_process callSid tr chatResp st).tracker
      (callSidKey callSid) = some 0 := by
  have htr' : ¬ truthyStr tr = false := by simp [htr]
  rw [voice_process_eq, if_neg htr']
  cases hc : ask_chat chatResp with
  | none => exact lookupT_insertT_self st (callSidKey callSid) 0
  | some reply =>
      have he : ¬ reply.shouldEnd = true := by
        intro he
        exact hcont (by simp [hc, he])
      simp [he, lookupT_insertT_self]

theorem process_end_deletes (callSid : Option String) (tr : Option String)
    (chatResp : Option (Option String)) (st : Tracker)
    (htr : truthyStr tr = true)
    (hend : (ask_chat chatResp).map ChatReply.shouldEnd = some true) :
    lookupT (voice_process callSid tr chatResp st).tracker
      (callSidKey callSid) = none := by
  have htr' : ¬ truthyStr tr = false := by simp [htr]
  rw [voice_process_eq, if_neg htr']
  cases hc : ask_chat chatResp with
  | none => rw [hc] at hend; simp at hend
  | some reply =>
      rw [hc] at hend
      have he : reply.shouldEnd = true := by simpa using hend
      simp [he, lookupT_eraseT_self]

/-- C6: every silence count reachable from process start is a
non-negative integer; a timeout event stores exactly the previous count
plus 1 (the entry being deleted instead when that increment is terminal);
and a non-empty-transcript event stores 0 (the entry being deleted
instead when the chat reply carries the end verdict). -/
theorem C6_silence_count (es : List VoiceEvent) (callSid : Option String)
    (tr : Option String) (chatResp : Option (Option String)) (st : Tracker) :
    nonnegT (runEvents es) = true ∧
    ((lookupT st (callSidKey callSid)).getD 0 + 1 < MAX_SILENCE_COUNT →
      lookupT (voice_timeout callSid st).2 (callSidKey callSid) =
        some ((lookupT st (callSidKey callSid)).getD 0 + 1)) ∧
    (MAX_SILENCE_COUNT ≤ (lookupT st (callSidKey callSid)).getD 0 + 1 →
      lookupT (voice_timeout callSid st).2 (callSidKey callSid) = none) ∧
    (truthyStr tr = true →
      (ask_chat chatResp).map ChatReply.shouldEnd ≠ some true →
      lookupT (voice_process callSid tr chatResp st).tracker
        (callSidKey callSid) = some 0) ∧
    (truthyStr tr = true →
      (ask_chat chatResp).map ChatReply.shouldEnd = some true →
      lookupT (voice_process callSid tr chatResp st).tracker
        (callSidKey callSid) = none) :=
  ⟨nonnegT_runEvents es,
   timeout_increments callSid st,
   timeout_terminal_deletes callSid st,
   process_resets callSid tr chatResp st,
   process_end_deletes callSid tr chatResp st⟩

/-- C6 witness: concrete instances of the non-negativity invariant, the
increment, the terminal deletion, the reset to 0, and the end-verdict
deletion. -/
theorem C6_silence_count_witness :
    nonnegT (runEvents
      [VoiceEvent.answer (some "CA1"), VoiceEvent.timeout (some "CA1"),
       VoiceEvent.timeout (some "CA1")]) = true ∧
    lookupT (voice_timeout (some "CA1") [("CA1", 0)]).2 "CA1" = some 1 ∧
    lookupT (voice_timeout (some "CA1") [("CA1", 1)]).2 "CA1" = none ∧
    lookupT (voice_process (some "CA1") (some "hi") (some (some "ok"))
        [("CA1", 1)]).tracker "CA1" = some 0 ∧
    lookupT (voice_process (some "CA1") (some "bye")
        (some (some "end_call true")) [("CA1", 1)]).tracker "CA1" = none :=
  ⟨(C6_silence_count
      [VoiceEvent.answer (some "CA1"), VoiceEvent.timeout (some "CA1"),
       VoiceEvent.timeout (some "CA1")]
      (some "CA1") (some "hi") (some (some "ok")) [("CA1", 0)]).1,
   (C6_silence_count [] (some "CA1") (some "hi") (some (some "ok"))
      [("CA1", 0)]).2.1 (by decide),
   (C6_silence_count [] (some "CA1") (some "hi") (some (some "ok"))
      [("CA1", 1)]).2.2.1 (by decide),
   (C6_silence_count [] (some "CA1") (some "hi") (some (some "ok"))
      [("CA1", 1)]).2.2.2.1 (by decide) (by decide),
   (C6_silence_count [] (some "CA1") (some "bye")
      (some (some "end_call true")) [("CA1", 1)]).2.2.2.2 (by decide)
      (by decide)⟩

/-- C7: for every call id (and whatever tracker state), the answer
handler stores `silence_count = 0` and renders the welcome greeting
inside a barge-in-enabled gather followed by a redirect to the timeout
handler — never a hangup. -/
theorem C7_first_contact (callSid : Option String) (st : Tracker) :
    (voice_answer callSid st).1 =
      [TwimlAction.gather (mkGather [WELCOME_PROMPT]),
       TwimlAction.redirect (absUrl "/voice/timeout") "POST"] ∧
    (mkGather [WELCOME_PROMPT]).bargeIn = true ∧
    (mkGather [WELCOME_PROMPT]).sayTexts = [WELCOME_PROMPT] ∧
    lookupT (voice_answer callSid st).2 (callSidKey callSid) = some 0 ∧
    hasHangup (voice_answer callSid st).1 = false :=
  ⟨rfl, rfl, rfl, lookupT_insertT_self st (callSidKey callSid) 0, rfl⟩

/-- C8: when the successful chat answer embeds the end-of-call marker
(`"end_call"` and `"true"` both occur in its lowercasing), `_ask_chat`
returns `should_end = true` with the answer replaced by the empty string,
and `voice_process` then renders goodbye plus hangup — the marker text is
never spoken — and deletes the session entry for that call id. -/
theorem C8_end_marker (ans : String) (callSid : Option String)
    (tr : Option String) (st : Tracker)
    (hne : ¬ ans = "")
    (hm1 : hasSub (strToLower ans) "end_call" = true)
    (hm2 : hasSub (strToLower ans) "true" = true)
    (htr : truthyStr tr = true) :
    ask_chat (some (some ans)) = some { answer := "", shouldEnd := true } ∧
    (voice_process callSid tr (some (some ans)) st).render =
      [TwimlAction.say GOODBYE_TEXT, TwimlAction.hangup] ∧
    lookupT (voice_process callSid tr (some (some ans)) st).tracker
      (callSidKey callSid) = none := by
  have hask : ask_chat (some (some ans)) =
      some { answer := "", shouldEnd := true } := by
    unfold ask_chat
    simp only [hne, if_false, Bool.false_eq_true]
    rw [if_pos]
    rw [hm1, hm2]
    rfl
  have htr' : ¬ truthyStr tr = false := by simp [htr]
  refine ⟨hask, ?_, ?_⟩
  · rw [voice_process_eq, if_neg htr', hask]
    rfl
  · rw [voice_process_eq, if_neg htr', hask]
    exact lookupT_eraseT_self st (callSidKey callSid)

/-- C8 witness: the statement at the marker-bearing answer
`"end_call: true"`. -/
theorem C8_end_marker_witness :
    ¬ "end_call: true" = "" ∧
    hasSub (strToLower "end_call: true") "end_call" = true ∧
    hasSub (strToLower "end_call: true") "true" = true ∧
    truthyStr (some "bye") = true ∧
    (ask_chat (some (some "end_call: true")) =
        some { answer := "", shouldEnd := true } ∧
      (voice_process (some "CA7") (some "bye")
          (some (some "end_call: true")) [("CA7", 0)]).render =
        [TwimlAction.say GOODBYE_TEXT, TwimlAction.hangup] ∧
      lookupT (voice_process (some "CA7") (some "bye")
          (some (some "end_call: true")) [("CA7", 0)]).tracker "CA7" =
        none) :=
  ⟨by decide, by decide, by decide, by decide,
   C8_end_marker "end_call: true" (some "CA7") (some "bye") [("CA7", 0)]
     (by decide) (by decide) (by decide) (by decide)⟩

/-- C9: an event whose form data lacks the CallSid field is processed
under the fixed key `"unknown"` by all three handlers, so all such events
read and mutate one shared counter: the answer handler stores 0 under
`"unknown"`, the timeout handler increments the `"unknown"` counter, the
process handler resets it, and two sid-less timeout events — even if they
came from distinct calls — add up to a terminal hangup. -/
theorem C9_missing_callsid (st : Tracker) (tr : Option String)
    (chatResp : Option (Option String)) :
    callSidKey none = "unknown" ∧
    lookupT (voice_answer none st).2 "unknown" = some 0 ∧
    ((lookupT st "unknown").getD 0 + 1 < MAX_SILENCE_COUNT →
      lookupT (voice_timeout none st).2 "unknown" =
        some ((lookupT st "unknown").getD 0 + 1)) ∧
    (truthyStr tr = true →
      (ask_chat chatResp).map ChatReply.shouldEnd ≠ some true →
      lookupT (voice_process none tr chatResp st).tracker "unknown" =
        some 0) ∧
    hasHangup (voice_timeout none (voice_timeout none []).2).1 = true := by
  refine ⟨rfl, lookupT_insertT_self st "unknown" 0, ?_, ?_, by decide⟩
  · exact fun h => timeout_increments none st h
  · exact fun htr hcont => process_resets none tr chatResp st htr hcont

/-- C9 witness: the statement at a sid-less timeout on a tracker whose
`"unknown"` counter is 0, and a sid-less spoken event. -/
theorem C9_missing_callsid_witness :
    callSidKey none = "unknown" ∧
    lookupT (voice_answer none [("unknown", 1)]).2 "unknown" = some 0 ∧
    lookupT (voice_timeout none [("unknown", 0)]).2 "unknown" = some 1 ∧
    lookupT (voice_process none (some "hi") (some (some "ok"))
        [("unknown", 1)]).tracker "unknown" = some 0 ∧
    hasHangup (voice_timeout none (voice_timeout none []).2).1 = true :=
  ⟨(C9_missing_callsid [("unknown", 1)] (some "hi") (some (some "ok"))).1,
   (C9_missing_callsid [("unknown", 1)] (some "hi") (some (some "ok"))).2.1,
   (C9_missing_callsid [("unknown", 0)] (some "hi")
      (some (some "ok"))).2.2.1 (by decide),
   (C9_missing_callsid [("unknown", 1)] (some "hi")
      (some (some "ok"))).2.2.2.1 (by decide) (by decide),
   (C9_missing_callsid [("unknown", 1)] (some "hi")
      (some (some "ok"))).2.2.2.2⟩

end TwilioVoice
